import Mathlib

/-!
Verification development for the ewoms-material three-phase
capillary-pressure / relative-permeability core.

The development shallowly embeds the Stone-I three-phase material law
(EclStone1Material), its parameter objects (EclStone1MaterialParams with
the EnsureFinalized mixin), the endpoint-scaling configuration
(EclEpsConfig) and scaling points (EclEpsScalingPoints), and the
approach multiplexer parameter object (EclMultiplexerMaterialParams).

Numeric values are modelled by the rationals.  The C++ code is generic
over a numeric toolbox; its power function (Toolbox::pow) and the nested
two-phase material laws (template parameters GasOilMaterialLaw and
OilWaterMaterialLaw, used only through their twoPhaseSat* functions) are
modelled as explicit function parameters.
-/

namespace EwomsMaterial

/-- clamp to the unit interval, as written in the source:
Toolbox::max(0.0, Toolbox::min(1.0, x)). -/
def clamp01 (x : ℚ) : ℚ := max 0 (min 1 x)

/-- Finalized view of EclStone1MaterialParams: the scalar values its
checked accessors Swl(), eta() and krocw() return once finalize() has
run (krocw is computed at finalize time). -/
structure EclStone1Params where
  Swl : ℚ
  eta : ℚ
  krocw : ℚ

/-- normalized water saturation SSw = (Sw - Swco)/(1 - Swco) from
EclStone1Material::krn. -/
def stone1SSw (Swco Sw : ℚ) : ℚ := (Sw - Swco) / (1 - Swco)

/-- normalized gas saturation SSg = Sg/(1 - Swco) from
EclStone1Material::krn. -/
def stone1SSg (Swco Sg : ℚ) : ℚ := Sg / (1 - Swco)

/-- normalized oil saturation SSo = 1 - SSw - SSg from
EclStone1Material::krn. -/
def stone1SSo (Swco Sw Sg : ℚ) : ℚ := 1 - stone1SSw Swco Sw - stone1SSg Swco Sg

/-- blending exponent beta of EclStone1Material::krn; tbPow models the
numeric toolbox power function Toolbox::pow. -/
def stone1Beta (tbPow : ℚ → ℚ → ℚ) (Swco eta Sw Sg : ℚ) : ℚ :=
  if Sw ≤ Swco then 1
  else
    let SSw := stone1SSw Swco Sw
    let SSg := stone1SSg Swco Sg
    let SSo := 1 - SSw - SSg
    if SSw ≥ 1 ∨ SSg ≥ 1 then 1
    else tbPow (SSo / ((1 - SSw) * (1 - SSg))) eta

namespace EclStone1Material

/-- EclStone1Material::krn.  The nested two-phase laws enter through
krnOW (OilWaterMaterialLaw::twoPhaseSatKrn applied to the oil-water
parameters) and krwGO (GasOilMaterialLaw::twoPhaseSatKrw applied to the
gas-oil parameters). -/
def krn (tbPow : ℚ → ℚ → ℚ) (krnOW krwGO : ℚ → ℚ)
    (params : EclStone1Params) (Sw Sg : ℚ) : ℚ :=
  let Swco := params.Swl
  let krocw := params.krocw
  let kro_ow := krnOW Sw
  let kro_go := krwGO (1 - Sg - Swco)
  let beta := stone1Beta tbPow Swco params.eta Sw Sg
  max 0 (min 1 (beta * kro_ow * kro_go / krocw))

/-- EclStone1Material::pcgn: gas-oil capillary pressure, evaluated at
the wetting saturation 1 - Sg. -/
def pcgn (pcnwGO : ℚ → ℚ) (Sg : ℚ) : ℚ := pcnwGO (1 - Sg)

/-- EclStone1Material::pcnw: oil-water capillary pressure, evaluated at
the water saturation Sw. -/
def pcnw (pcnwOW : ℚ → ℚ) (Sw : ℚ) : ℚ := pcnwOW Sw

/-- container of the three phase-indexed capillary pressures written by
EclStone1Material::capillaryPressures. -/
structure Pc3 where
  gas : ℚ
  oil : ℚ
  water : ℚ

/-- EclStone1Material::capillaryPressures: values[gas] = pcgn,
values[oil] = 0, values[water] = -pcnw. -/
def capillaryPressures (pcnwGO pcnwOW : ℚ → ℚ) (Sw Sg : ℚ) : Pc3 :=
  { gas := pcgn pcnwGO Sg
    oil := 0
    water := - pcnw pcnwOW Sw }

end EclStone1Material

/-- C1: EclStone1Material::krn returns exactly the clamp (applied as the
final step) of the blend beta * kro_ow * kro_go / krocw, where kro_ow is
the oil-water twoPhaseSatKrn at Sw and kro_go is the gas-oil
twoPhaseSatKrw at 1 - Sg - Swco; consequently the returned oil relative
permeability always lies in the unit interval. -/
theorem EclStone1Material.krn_clamps_blend
    (tbPow : ℚ → ℚ → ℚ) (krnOW krwGO : ℚ → ℚ)
    (params : EclStone1Params) (Sw Sg : ℚ) :
    krn tbPow krnOW krwGO params Sw Sg
      = clamp01 (stone1Beta tbPow params.Swl params.eta Sw Sg
                  * krnOW Sw * krwGO (1 - Sg - params.Swl) / params.krocw)
    ∧ 0 ≤ krn tbPow krnOW krwGO params Sw Sg
    ∧ krn tbPow krnOW krwGO params Sw Sg ≤ 1 := by
  refine ⟨rfl, le_max_left 0 _, ?_⟩
  unfold krn
  exact max_le (by norm_num) (min_le_left 1 _)

/-- C2: the blending exponent beta equals 1 whenever Sw ≤ Swco; for
Sw > Swco it equals 1 when SSw ≥ 1 or SSg ≥ 1 and equals
pow(SSo / ((1 - SSw) * (1 - SSg)), eta) otherwise; and at Sw = Swco
exactly, krn reduces to clamp(kro_ow * kro_go / krocw, 0, 1). -/
theorem EclStone1Material.krn_beta_cases
    (tbPow : ℚ → ℚ → ℚ) (krnOW krwGO : ℚ → ℚ)
    (params : EclStone1Params) (Sw Sg : ℚ) :
    (Sw ≤ params.Swl → stone1Beta tbPow params.Swl params.eta Sw Sg = 1)
    ∧ (params.Swl < Sw →
        (stone1SSw params.Swl Sw ≥ 1 ∨ stone1SSg params.Swl Sg ≥ 1) →
        stone1Beta tbPow params.Swl params.eta Sw Sg = 1)
    ∧ (params.Swl < Sw →
        stone1SSw params.Swl Sw < 1 → stone1SSg params.Swl Sg < 1 →
        stone1Beta tbPow params.Swl params.eta Sw Sg
          = tbPow (stone1SSo params.Swl Sw Sg
                    / ((1 - stone1SSw params.Swl Sw) * (1 - stone1SSg params.Swl Sg)))
                  params.eta)
    ∧ krn tbPow krnOW krwGO params params.Swl Sg
        = clamp01 (krnOW params.Swl * krwGO (1 - Sg - params.Swl) / params.krocw) := by
  refine ⟨?_, ?_, ?_, ?_⟩
  · intro h
    simp [stone1Beta, h]
  · intro h hor
    rw [stone1Beta, if_neg (not_le.mpr h), if_pos hor]
  · intro h hw hg
    rw [stone1Beta, if_neg (not_le.mpr h),
        if_neg (by push_neg; exact ⟨hw, hg⟩)]
    rfl
  · show max 0 (min 1 (stone1Beta tbPow params.Swl params.eta params.Swl Sg
        * krnOW params.Swl * krwGO (1 - Sg - params.Swl) / params.krocw)) = _
    rw [stone1Beta, if_pos (le_refl params.Swl), one_mul]
    rfl

/-- witness for C2 at Swco = 1/10, eta = 2, krocw = 1/2, Sw = 1/2,
Sg = 1/4: the interior branch applies and beta is the quotient of
normalized saturations. -/
theorem EclStone1Material.krn_beta_cases_witness :
    ((1 : ℚ)/10 < 1/2
      ∧ stone1SSw (1/10) (1/2) < 1 ∧ stone1SSg (1/10) (1/4) < 1)
    ∧ stone1Beta (fun x _ => x) (1/10) 2 (1/2) (1/4)
        = (fun (x _e : ℚ) => x)
            (stone1SSo (1/10) (1/2) (1/4)
              / ((1 - stone1SSw (1/10) (1/2)) * (1 - stone1SSg (1/10) (1/4)))) 2 := by
  have h1 : (1 : ℚ)/10 < 1/2 := by norm_num
  have h2 : stone1SSw (1/10) (1/2) < 1 := by norm_num [stone1SSw]
  have h3 : stone1SSg ((1:ℚ)/10) (1/4) < 1 := by norm_num [stone1SSg]
  refine ⟨⟨h1, h2, h3⟩, ?_⟩
  exact (EclStone1Material.krn_beta_cases (fun x _ => x) id id
    ⟨1/10, 2, 1/2⟩ (1/2) (1/4)).2.2.1 h1 h2 h3

/-- C7: assuming Swco < 1, the division defining beta happens only on
the branch where Sw > Swco, SSw < 1 and SSg < 1, on which the divisor
(1 - SSw) * (1 - SSg) is strictly positive; every other case takes the
explicit safe value beta = 1. -/
theorem EclStone1Material.krn_no_division_by_zero
    (tbPow : ℚ → ℚ → ℚ) (Swco eta Sw Sg : ℚ) (hSwco : Swco < 1) :
    stone1Beta tbPow Swco eta Sw Sg = 1
    ∨ (Swco < Sw ∧ stone1SSw Swco Sw < 1 ∧ stone1SSg Swco Sg < 1
        ∧ 0 < (1 - stone1SSw Swco Sw) * (1 - stone1SSg Swco Sg)
        ∧ stone1Beta tbPow Swco eta Sw Sg
            = tbPow (stone1SSo Swco Sw Sg
                      / ((1 - stone1SSw Swco Sw) * (1 - stone1SSg Swco Sg))) eta) := by
  by_cases hle : Sw ≤ Swco
  · left
    simp [stone1Beta, hle]
  · by_cases hb : stone1SSw Swco Sw ≥ 1 ∨ stone1SSg Swco Sg ≥ 1
    · left
      rw [stone1Beta, if_neg hle, if_pos hb]
    · right
      push_neg at hb
      refine ⟨not_le.mp hle, hb.1, hb.2, ?_, ?_⟩
      · exact mul_pos (by linarith [hb.1]) (by linarith [hb.2])
      · rw [stone1Beta, if_neg hle, if_neg (by push_neg; exact hb)]
        rfl

/-- witness for C7 at Swco = 1/10 < 1, Sw = 0, Sg = 0: the safe branch
applies. -/
theorem EclStone1Material.krn_no_division_by_zero_witness :
    ((1 : ℚ)/10 < 1)
    ∧ (stone1Beta (fun x _ => x) (1/10) 2 0 0 = 1
       ∨ ((1:ℚ)/10 < 0 ∧ stone1SSw (1/10) 0 < 1 ∧ stone1SSg (1/10) 0 < 1
          ∧ 0 < (1 - stone1SSw (1/10) 0) * (1 - stone1SSg (1/10) 0)
          ∧ stone1Beta (fun x _ => x) (1/10) 2 0 0
              = (fun (x _e : ℚ) => x)
                  (stone1SSo (1/10) 0 0
                    / ((1 - stone1SSw (1/10) 0) * (1 - stone1SSg (1/10) 0))) 2)) :=
  ⟨by norm_num,
   EclStone1Material.krn_no_division_by_zero (fun x _ => x) (1/10) 2 0 0 (by norm_num)⟩

/-- C3: EclStone1Material::capillaryPressures writes out[gas] equal to
the gas-oil twoPhaseSatPcnw at 1 - Sg, out[oil] equal to exactly 0, and
out[water] equal to minus the oil-water twoPhaseSatPcnw at Sw. -/
theorem EclStone1Material.capillaryPressures_spec
    (pcnwGO pcnwOW : ℚ → ℚ) (Sw Sg : ℚ) :
    (EclStone1Material.capillaryPressures pcnwGO pcnwOW Sw Sg).gas = pcnwGO (1 - Sg)
    ∧ (EclStone1Material.capillaryPressures pcnwGO pcnwOW Sw Sg).oil = 0
    ∧ (EclStone1Material.capillaryPressures pcnwGO pcnwOW Sw Sg).water = - pcnwOW Sw :=
  ⟨rfl, rfl, rfl⟩

/-- enum EclTwoPhaseSystemType from eclepsconfig.hh. -/
inductive EclTwoPhaseSystemType
  | EclGasOilSystem
  | EclOilWaterSystem
deriving DecidableEq

/-- struct EclEpsScalingPointsInfo: all values which can possibly be
used as scaling points by the endpoint-scaling code. -/
structure EclEpsScalingPointsInfo where
  Swl : ℚ
  Sgl : ℚ
  Sowl : ℚ
  Sogl : ℚ
  krCriticalEps : ℚ
  Swcr : ℚ
  Sgcr : ℚ
  Sowcr : ℚ
  Sogcr : ℚ
  Swu : ℚ
  Sgu : ℚ
  Sowu : ℚ
  Sogu : ℚ
  maxPcow : ℚ
  maxPcgo : ℚ
  pcowLeverettFactor : ℚ
  pcgoLeverettFactor : ℚ
  maxKrw : ℚ
  maxKrow : ℚ
  maxKrog : ℚ
  maxKrg : ℚ
deriving DecidableEq

/-- configuration flags of class EclEpsConfig (all default to false in
the constructor). -/
structure EclEpsConfig where
  enableSatScaling : Bool
  enableThreePointKrSatScaling : Bool
  enablePcScaling : Bool
  enableLeverettScaling : Bool
  enableKrwScaling : Bool
  enableKrnScaling : Bool
deriving DecidableEq

/-- state of class EclEpsScalingPoints: the two/three saturation points
per curve are modelled as tuples mirroring the std::array members. -/
structure EclEpsScalingPoints where
  maxPcnwOrLeverettFactor_ : ℚ
  maxKrw_ : ℚ
  maxKrn_ : ℚ
  saturationPcPoints_ : ℚ × ℚ
  saturationKrwPoints_ : ℚ × ℚ × ℚ
  saturationKrnPoints_ : ℚ × ℚ × ℚ
deriving DecidableEq

namespace EclEpsScalingPoints

/-- EclEpsScalingPoints::init.  Entries the C++ code does not assign
(the third array slot in 2-point mode) keep their previous value, so
init maps the previous object state to the new one. -/
def init (prev : EclEpsScalingPoints) (epsInfo : EclEpsScalingPointsInfo)
    (config : EclEpsConfig) (epsSystemType : EclTwoPhaseSystemType) :
    EclEpsScalingPoints :=
  match epsSystemType with
  | .EclOilWaterSystem =>
    { maxPcnwOrLeverettFactor_ :=
        if config.enableLeverettScaling then epsInfo.pcowLeverettFactor
        else epsInfo.maxPcow
      maxKrw_ := epsInfo.maxKrw
      maxKrn_ := epsInfo.maxKrow
      saturationPcPoints_ := (epsInfo.Swl, epsInfo.Swu)
      saturationKrwPoints_ :=
        if config.enableThreePointKrSatScaling then
          (epsInfo.Swcr, 1 - epsInfo.Sowcr - epsInfo.Sgl, epsInfo.Swu)
        else
          (epsInfo.Swcr, epsInfo.Swu, prev.saturationKrwPoints_.2.2)
      saturationKrnPoints_ :=
        if config.enableThreePointKrSatScaling then
          (epsInfo.Swl + epsInfo.Sgl, epsInfo.Swcr + epsInfo.Sgl, 1 - epsInfo.Sowcr)
        else
          (epsInfo.Swl + epsInfo.Sgl, 1 - epsInfo.Sowcr, prev.saturationKrnPoints_.2.2) }
  | .EclGasOilSystem =>
    { maxPcnwOrLeverettFactor_ :=
        if config.enableLeverettScaling then epsInfo.pcgoLeverettFactor
        else epsInfo.maxPcgo
      maxKrw_ := epsInfo.maxKrog
      maxKrn_ := epsInfo.maxKrg
      saturationPcPoints_ := (1 - epsInfo.Sgu, 1 - epsInfo.Sgl)
      saturationKrwPoints_ :=
        if config.enableThreePointKrSatScaling then
          (epsInfo.Sogcr, 1 - epsInfo.Sgcr - epsInfo.Swl, 1 - epsInfo.Swl - epsInfo.Sgl)
        else
          (epsInfo.Sogcr, 1 - epsInfo.Swl - epsInfo.Sgl, prev.saturationKrwPoints_.2.2)
      saturationKrnPoints_ :=
        if config.enableThreePointKrSatScaling then
          (1 - epsInfo.Sgu, epsInfo.Sogcr + epsInfo.Swl, 1 - epsInfo.Sgcr)
        else
          (1 - epsInfo.Sgu, 1 - epsInfo.Sgcr, prev.saturationKrnPoints_.2.2) }

/-- EclEpsScalingPoints::setMaxPcnw. -/
def setMaxPcnw (p : EclEpsScalingPoints) (value : ℚ) : EclEpsScalingPoints :=
  { p with maxPcnwOrLeverettFactor_ := value }

/-- EclEpsScalingPoints::maxPcnw. -/
def maxPcnw (p : EclEpsScalingPoints) : ℚ := p.maxPcnwOrLeverettFactor_

/-- EclEpsScalingPoints::setLeverettFactor. -/
def setLeverettFactor (p : EclEpsScalingPoints) (value : ℚ) : EclEpsScalingPoints :=
  { p with maxPcnwOrLeverettFactor_ := value }

/-- EclEpsScalingPoints::leverettFactor. -/
def leverettFactor (p : EclEpsScalingPoints) : ℚ := p.maxPcnwOrLeverettFactor_

end EclEpsScalingPoints

/-- C4: for the oil-water system, EclEpsScalingPoints::init sets the
capillary-pressure saturation points to (Swl, Swu); the wetting relperm
points to (Swcr, Swu) in 2-point mode and to
(Swcr, 1 - Sowcr - Sgl, Swu) in 3-point mode; the non-wetting relperm
points, complemented and reversed, to (Swl + Sgl, 1 - Sowcr) in 2-point
mode and (Swl + Sgl, Swcr + Sgl, 1 - Sowcr) in 3-point mode; the shared
maximum-Pc-or-Leverett field to the Leverett factor when Leverett
scaling is enabled and to maxPcow otherwise; and maxKrw, maxKrn to
maxKrw, maxKrow. -/
theorem EclEpsScalingPoints.init_oilWater_spec
    (prev : EclEpsScalingPoints) (epsInfo : EclEpsScalingPointsInfo)
    (config : EclEpsConfig) :
    (EclEpsScalingPoints.init prev epsInfo config .EclOilWaterSystem).saturationPcPoints_
        = (epsInfo.Swl, epsInfo.Swu)
    ∧ (config.enableThreePointKrSatScaling = true →
        (EclEpsScalingPoints.init prev epsInfo config .EclOilWaterSystem).saturationKrwPoints_
            = (epsInfo.Swcr, 1 - epsInfo.Sowcr - epsInfo.Sgl, epsInfo.Swu)
        ∧ (EclEpsScalingPoints.init prev epsInfo config .EclOilWaterSystem).saturationKrnPoints_
            = (epsInfo.Swl + epsInfo.Sgl, epsInfo.Swcr + epsInfo.Sgl, 1 - epsInfo.Sowcr))
    ∧ (config.enableThreePointKrSatScaling = false →
        ((EclEpsScalingPoints.init prev epsInfo config .EclOilWaterSystem).saturationKrwPoints_.1,
         (EclEpsScalingPoints.init prev epsInfo config .EclOilWaterSystem).saturationKrwPoints_.2.1)
            = (epsInfo.Swcr, epsInfo.Swu)
        ∧ ((EclEpsScalingPoints.init prev epsInfo config .EclOilWaterSystem).saturationKrnPoints_.1,
           (EclEpsScalingPoints.init prev epsInfo config .EclOilWaterSystem).saturationKrnPoints_.2.1)
            = (epsInfo.Swl + epsInfo.Sgl, 1 - epsInfo.Sowcr))
    ∧ (EclEpsScalingPoints.init prev epsInfo config .EclOilWaterSystem).maxPcnwOrLeverettFactor_
        = (if config.enableLeverettScaling then epsInfo.pcowLeverettFactor else epsInfo.maxPcow)
    ∧ (EclEpsScalingPoints.init prev epsInfo config .EclOilWaterSystem).maxKrw_ = epsInfo.maxKrw
    ∧ (EclEpsScalingPoints.init prev epsInfo config .EclOilWaterSystem).maxKrn_ = epsInfo.maxKrow := by
  refine ⟨rfl, ?_, ?_, rfl, rfl, rfl⟩
  · intro h3
    constructor <;> simp [EclEpsScalingPoints.init, h3]
  · intro h2
    constructor <;> simp [EclEpsScalingPoints.init, h2]

/-- witness for C4: a concrete 3-point oil-water configuration produces
the three-point saturation points. -/
theorem EclEpsScalingPoints.init_oilWater_spec_witness :
    (EclEpsConfig.mk true true false false false false).enableThreePointKrSatScaling = true
    ∧ (EclEpsScalingPoints.init ⟨0, 0, 0, (0, 0), (0, 0, 0), (0, 0, 0)⟩
        ⟨1/10, 1/20, 0, 0, 0, 1/5, 0, 3/20, 0, 9/10, 0, 0, 0, 5, 6, 2, 3, 7/10, 4/5, 0, 0⟩
        (EclEpsConfig.mk true true false false false false)
        .EclOilWaterSystem).saturationKrwPoints_
        = (1/5, 1 - 3/20 - 1/20, 9/10)
    ∧ (EclEpsScalingPoints.init ⟨0, 0, 0, (0, 0), (0, 0, 0), (0, 0, 0)⟩
        ⟨1/10, 1/20, 0, 0, 0, 1/5, 0, 3/20, 0, 9/10, 0, 0, 0, 5, 6, 2, 3, 7/10, 4/5, 0, 0⟩
        (EclEpsConfig.mk true true false false false false)
        .EclOilWaterSystem).saturationKrnPoints_
        = (1/10 + 1/20, 1/5 + 1/20, 1 - 3/20) :=
  ⟨rfl,
   (EclEpsScalingPoints.init_oilWater_spec ⟨0, 0, 0, (0, 0), (0, 0, 0), (0, 0, 0)⟩
      ⟨1/10, 1/20, 0, 0, 0, 1/5, 0, 3/20, 0, 9/10, 0, 0, 0, 5, 6, 2, 3, 7/10, 4/5, 0, 0⟩
      (EclEpsConfig.mk true true false false false false)).2.1 rfl⟩

/-- C10: setMaxPcnw and setLeverettFactor write, and maxPcnw and
leverettFactor read, the same shared field maxPcnwOrLeverettFactor_,
so setting one value always overwrites the other. -/
theorem EclEpsScalingPoints.maxPcnw_leverettFactor_aliased
    (p : EclEpsScalingPoints) (v : ℚ) :
    (p.setMaxPcnw v).maxPcnw = v
    ∧ (p.setMaxPcnw v).leverettFactor = v
    ∧ (p.setLeverettFactor v).maxPcnw = v
    ∧ (p.setLeverettFactor v).leverettFactor = v :=
  ⟨rfl, rfl, rfl, rfl⟩

/-- flag values of the JFUNC keyword (Ewoms::JFunc::Flag) as read by
EclEpsConfig::initFromDeck. -/
inductive JFuncFlag
  | WATER
  | GAS
  | BOTH
deriving DecidableEq

/-- deck and eclipse-state inputs read by EclEpsConfig::initFromDeck:
whether the ENDSCALE keyword is present (endscale), whether it selects
three-point scaling, the JFUNC keyword and its flag, and which field
properties are present in the deck. -/
structure DeckState where
  endscale : Bool
  threepoint : Bool
  useJFunc : Bool
  jfuncFlag : JFuncFlag
  hasKRO : Bool
  hasKRW : Bool
  hasPCW : Bool
  hasSWATINIT : Bool
  hasKRG : Bool
  hasPCG : Bool
deriving DecidableEq

namespace EclEpsConfig

/-- value of enableLeverettScaling_ after the JFUNC inspection in
initFromDeck on the endpoint-scaling path: it is set to true when the
JFUNC keyword applies to the subsystem and otherwise keeps the value
the object already had. -/
def levFlagFromDeck (prev : EclEpsConfig) (deck : DeckState)
    (twoPhaseSystemType : EclTwoPhaseSystemType) : Bool :=
  prev.enableLeverettScaling
  || (deck.useJFunc &&
      match twoPhaseSystemType with
      | .EclOilWaterSystem =>
        (match deck.jfuncFlag with
         | .BOTH => true
         | .WATER => true
         | .GAS => false)
      | .EclGasOilSystem =>
        (match deck.jfuncFlag with
         | .BOTH => true
         | .GAS => true
         | .WATER => false))

/-- value of enablePcScaling_ computed by initFromDeck from the field
properties of the deck. -/
def pcFlagFromDeck (deck : DeckState)
    (twoPhaseSystemType : EclTwoPhaseSystemType) : Bool :=
  match twoPhaseSystemType with
  | .EclOilWaterSystem => deck.hasPCW || deck.hasSWATINIT
  | .EclGasOilSystem => deck.hasPCG

/-- error message thrown by initFromDeck when capillary-pressure
scaling and Leverett scaling are both requested. -/
def pcLeverettMutuallyExclusiveMsg : String :=
  "Capillary pressure scaling and the Leverett scaling function are mutually exclusive: The deck contains the PCW/PCG property and the JFUNC keyword applies to the water phase."

/-- EclEpsConfig::initFromDeck, modelled as a state transformer on the
configuration object that may raise the mutual-exclusion error. -/
def initFromDeck (prev : EclEpsConfig) (deck : DeckState)
    (twoPhaseSystemType : EclTwoPhaseSystemType) : Except String EclEpsConfig :=
  if deck.endscale = false then
    Except.ok
      { enableSatScaling := false
        enableThreePointKrSatScaling := false
        enablePcScaling := false
        enableLeverettScaling := false
        enableKrwScaling := false
        enableKrnScaling := false }
  else
    let enableLeverettScaling := levFlagFromDeck prev deck twoPhaseSystemType
    let enableKrnScaling :=
      match twoPhaseSystemType with
      | .EclOilWaterSystem => deck.hasKRO
      | .EclGasOilSystem => deck.hasKRG
    let enableKrwScaling :=
      match twoPhaseSystemType with
      | .EclOilWaterSystem => deck.hasKRW
      | .EclGasOilSystem => deck.hasKRO
    let enablePcScaling := pcFlagFromDeck deck twoPhaseSystemType
    if enablePcScaling && enableLeverettScaling then
      Except.error pcLeverettMutuallyExclusiveMsg
    else
      Except.ok
        { enableSatScaling := true
          enableThreePointKrSatScaling := deck.threepoint
          enablePcScaling := enablePcScaling
          enableLeverettScaling := enableLeverettScaling
          enableKrwScaling := enableKrwScaling
          enableKrnScaling := enableKrnScaling }

end EclEpsConfig

/-- C5: configuration construction from a deck never succeeds with both
enablePcScaling and enableLeverettScaling set for one subsystem, and
whenever the two flags would both come out true the construction raises
the descriptive mutual-exclusion error instead of picking one. -/
theorem EclEpsConfig.initFromDeck_rejects_pc_with_leverett
    (prev : EclEpsConfig) (deck : DeckState)
    (twoPhaseSystemType : EclTwoPhaseSystemType) :
    (∀ cfg : EclEpsConfig,
      EclEpsConfig.initFromDeck prev deck twoPhaseSystemType = Except.ok cfg →
      ¬(cfg.enablePcScaling = true ∧ cfg.enableLeverettScaling = true))
    ∧ (deck.endscale = true →
        EclEpsConfig.pcFlagFromDeck deck twoPhaseSystemType = true →
        EclEpsConfig.levFlagFromDeck prev deck twoPhaseSystemType = true →
        EclEpsConfig.initFromDeck prev deck twoPhaseSystemType
          = Except.error EclEpsConfig.pcLeverettMutuallyExclusiveMsg) := by
  constructor
  · intro cfg h
    rw [EclEpsConfig.initFromDeck.eq_def] at h
    by_cases he : deck.endscale = false
    · rw [if_pos he] at h
      simp only [Except.ok.injEq] at h
      subst h
      simp
    · rw [if_neg he] at h
      by_cases hpl : (EclEpsConfig.pcFlagFromDeck deck twoPhaseSystemType
          && EclEpsConfig.levFlagFromDeck prev deck twoPhaseSystemType) = true
      · rw [if_pos hpl] at h
        exact absurd h (by simp)
      · rw [if_neg hpl] at h
        simp only [Except.ok.injEq] at h
        subst h
        intro hc
        apply hpl
        rw [Bool.and_eq_true]
        exact ⟨hc.1, hc.2⟩
  · intro he hpc hlev
    rw [EclEpsConfig.initFromDeck.eq_def, if_neg (by simp [he]),
        if_pos (by simp only [hpc, hlev, Bool.and_self])]

/-- witness for C5: with ENDSCALE active, the PCW property present and
a water-phase JFUNC keyword, construction ends in the error. -/
theorem EclEpsConfig.initFromDeck_rejects_pc_with_leverett_witness :
    (DeckState.mk true false true JFuncFlag.WATER false false true false false false).endscale = true
    ∧ EclEpsConfig.pcFlagFromDeck
        (DeckState.mk true false true JFuncFlag.WATER false false true false false false)
        .EclOilWaterSystem = true
    ∧ EclEpsConfig.levFlagFromDeck
        (EclEpsConfig.mk false false false false false false)
        (DeckState.mk true false true JFuncFlag.WATER false false true false false false)
        .EclOilWaterSystem = true
    ∧ EclEpsConfig.initFromDeck
        (EclEpsConfig.mk false false false false false false)
        (DeckState.mk true false true JFuncFlag.WATER false false true false false false)
        .EclOilWaterSystem
        = Except.error EclEpsConfig.pcLeverettMutuallyExclusiveMsg :=
  ⟨rfl, rfl, rfl,
   (EclEpsConfig.initFromDeck_rejects_pc_with_leverett
      (EclEpsConfig.mk false false false false false false)
      (DeckState.mk true false true JFuncFlag.WATER false false true false false false)
      .EclOilWaterSystem).2 rfl rfl rfl⟩

/-- error message raised by EnsureFinalized::check. -/
def notFinalizedMsg : String :=
  "Parameter class has not been finalized before usage!"

/-- the EnsureFinalized mixin: a finalized flag, false on construction. -/
structure EnsureFinalized where
  finalized_ : Bool
deriving DecidableEq

/-- default constructor of EnsureFinalized: finalized_ = false. -/
def EnsureFinalized.defaultInit : EnsureFinalized := ⟨false⟩

/-- EnsureFinalized::check: throws a runtime error when the object has
not been finalized. -/
def EnsureFinalized.check (e : EnsureFinalized) : Except String Unit :=
  if e.finalized_ then Except.ok () else Except.error notFinalizedMsg

/-- EnsureFinalized::finalize: marks the object as finalized. -/
def EnsureFinalized.finalize (e : EnsureFinalized) : EnsureFinalized :=
  { e with finalized_ := true }

/-- storage of EclStone1MaterialParams: shared pointers to the nested
two-phase parameter objects (none models a null pointer) and the
scalar members, none while still unset after default construction. -/
structure EclStone1MaterialParams (GasOilParams OilWaterParams : Type) where
  base : EnsureFinalized
  gasOilParams_ : Option GasOilParams
  oilWaterParams_ : Option OilWaterParams
  Swl_ : Option ℚ
  eta_ : Option ℚ
  krocw_ : Option ℚ

namespace EclStone1MaterialParams

variable {GasOilParams OilWaterParams : Type}

/-- default constructor of EclStone1MaterialParams. -/
def defaultInit : EclStone1MaterialParams GasOilParams OilWaterParams :=
  ⟨EnsureFinalized.defaultInit, none, none, none, none, none⟩

/-- EclStone1MaterialParams::finalize: computes krocw by evaluating the
oil-water twoPhaseSatKrn at Swl, then marks the object finalized. -/
def finalize (twoPhaseSatKrnOW : OilWaterParams → ℚ → ℚ)
    (p : EclStone1MaterialParams GasOilParams OilWaterParams) :
    EclStone1MaterialParams GasOilParams OilWaterParams :=
  { p with
    krocw_ :=
      match p.oilWaterParams_, p.Swl_ with
      | some owp, some swl => some (twoPhaseSatKrnOW owp swl)
      | _, _ => none
    base := p.base.finalize }

/-- checked accessor EclStone1MaterialParams::Swl. -/
def Swl (p : EclStone1MaterialParams GasOilParams OilWaterParams) :
    Except String (Option ℚ) :=
  Except.map (fun _ => p.Swl_) p.base.check

/-- checked accessor EclStone1MaterialParams::krocw. -/
def krocw (p : EclStone1MaterialParams GasOilParams OilWaterParams) :
    Except String (Option ℚ) :=
  Except.map (fun _ => p.krocw_) p.base.check

/-- checked accessor EclStone1MaterialParams::eta. -/
def eta (p : EclStone1MaterialParams GasOilParams OilWaterParams) :
    Except String (Option ℚ) :=
  Except.map (fun _ => p.eta_) p.base.check

/-- checked accessor EclStone1MaterialParams::gasOilParams. -/
def gasOilParams (p : EclStone1MaterialParams GasOilParams OilWaterParams) :
    Except String (Option GasOilParams) :=
  Except.map (fun _ => p.gasOilParams_) p.base.check

/-- checked accessor EclStone1MaterialParams::oilWaterParams. -/
def oilWaterParams (p : EclStone1MaterialParams GasOilParams OilWaterParams) :
    Except String (Option OilWaterParams) :=
  Except.map (fun _ => p.oilWaterParams_) p.base.check

/-- EclStone1MaterialParams::setSwl. -/
def setSwl (p : EclStone1MaterialParams GasOilParams OilWaterParams) (v : ℚ) :
    EclStone1MaterialParams GasOilParams OilWaterParams :=
  { p with Swl_ := some v }

/-- EclStone1MaterialParams::setEta. -/
def setEta (p : EclStone1MaterialParams GasOilParams OilWaterParams) (v : ℚ) :
    EclStone1MaterialParams GasOilParams OilWaterParams :=
  { p with eta_ := some v }

end EclStone1MaterialParams

/-- tests whether an Except value is a success. -/
def isOkE {α : Type} : Except String α → Bool
  | Except.ok _ => true
  | Except.error _ => false

/-- C8: on a parameter object embedding EnsureFinalized that has not
been finalized, every checked accessor (Swl, krocw, eta, gasOilParams,
oilWaterParams) raises the runtime error; after finalize has run, the
same accessors all succeed. -/
theorem EclStone1MaterialParams.accessors_require_finalize
    (GasOilParams OilWaterParams : Type)
    (twoPhaseSatKrnOW : OilWaterParams → ℚ → ℚ)
    (p : EclStone1MaterialParams GasOilParams OilWaterParams)
    (h : p.base.finalized_ = false) :
    (p.Swl = Except.error notFinalizedMsg
     ∧ p.krocw = Except.error notFinalizedMsg
     ∧ p.eta = Except.error notFinalizedMsg
     ∧ p.gasOilParams = Except.error notFinalizedMsg
     ∧ p.oilWaterParams = Except.error notFinalizedMsg)
    ∧ (isOkE (p.finalize twoPhaseSatKrnOW).Swl = true
       ∧ isOkE (p.finalize twoPhaseSatKrnOW).krocw = true
       ∧ isOkE (p.finalize twoPhaseSatKrnOW).eta = true
       ∧ isOkE (p.finalize twoPhaseSatKrnOW).gasOilParams = true
       ∧ isOkE (p.finalize twoPhaseSatKrnOW).oilWaterParams = true) := by
  constructor
  · refine ⟨?_, ?_, ?_, ?_, ?_⟩ <;>
      simp [EclStone1MaterialParams.Swl, EclStone1MaterialParams.krocw,
            EclStone1MaterialParams.eta, EclStone1MaterialParams.gasOilParams,
            EclStone1MaterialParams.oilWaterParams, EnsureFinalized.check, h,
            Except.map]
  · refine ⟨?_, ?_, ?_, ?_, ?_⟩ <;>
      simp [EclStone1MaterialParams.Swl, EclStone1MaterialParams.krocw,
            EclStone1MaterialParams.eta, EclStone1MaterialParams.gasOilParams,
            EclStone1MaterialParams.oilWaterParams,
            EclStone1MaterialParams.finalize, EnsureFinalized.check,
            EnsureFinalized.finalize, Except.map, isOkE]

/-- witness for C8: the default-constructed Stone1 parameter object is
unfinalized, its Swl accessor errors, and after finalize it succeeds. -/
theorem EclStone1MaterialParams.accessors_require_finalize_witness :
    (@EclStone1MaterialParams.defaultInit Unit Unit).base.finalized_ = false
    ∧ (@EclStone1MaterialParams.defaultInit Unit Unit).Swl
        = Except.error notFinalizedMsg
    ∧ isOkE ((@EclStone1MaterialParams.defaultInit Unit Unit).finalize
        (fun _ s => s)).Swl = true :=
  ⟨rfl,
   (EclStone1MaterialParams.accessors_require_finalize Unit Unit (fun _ s => s)
      EclStone1MaterialParams.defaultInit rfl).1.1,
   (EclStone1MaterialParams.accessors_require_finalize Unit Unit (fun _ s => s)
      EclStone1MaterialParams.defaultInit rfl).2.1⟩

/-- storage of EclStone2MaterialParams. -/
structure EclStone2MaterialParams (GasOilParams OilWaterParams : Type) where
  base : EnsureFinalized
  gasOilParams_ : Option GasOilParams
  oilWaterParams_ : Option OilWaterParams
  Swl_ : Option ℚ

/-- default constructor of EclStone2MaterialParams. -/
def EclStone2MaterialParams.defaultInit {GasOilParams OilWaterParams : Type} :
    EclStone2MaterialParams GasOilParams OilWaterParams :=
  ⟨EnsureFinalized.defaultInit, none, none, none⟩

/-- storage of EclDefaultMaterialParams. -/
structure EclDefaultMaterialParams (GasOilParams OilWaterParams : Type) where
  base : EnsureFinalized
  gasOilParams_ : Option GasOilParams
  oilWaterParams_ : Option OilWaterParams
  Swl_ : Option ℚ

/-- default constructor of EclDefaultMaterialParams. -/
def EclDefaultMaterialParams.defaultInit {GasOilParams OilWaterParams : Type} :
    EclDefaultMaterialParams GasOilParams OilWaterParams :=
  ⟨EnsureFinalized.defaultInit, none, none, none⟩

/-- enum class EclTwoPhaseApproach. -/
inductive EclTwoPhaseApproach
  | EclTwoPhaseGasOil
  | EclTwoPhaseOilWater
  | EclTwoPhaseGasWater
deriving DecidableEq

/-- storage of EclTwoPhaseMaterialParams; the approach member is an
enum left indeterminate by the default constructor. -/
structure EclTwoPhaseMaterialParams (GasOilParams OilWaterParams : Type) where
  base : EnsureFinalized
  approach_ : Option EclTwoPhaseApproach
  gasOilParams_ : Option GasOilParams
  oilWaterParams_ : Option OilWaterParams

/-- default constructor of EclTwoPhaseMaterialParams. -/
def EclTwoPhaseMaterialParams.defaultInit {GasOilParams OilWaterParams : Type} :
    EclTwoPhaseMaterialParams GasOilParams OilWaterParams :=
  ⟨EnsureFinalized.defaultInit, none, none, none⟩

/-- enum class EclMultiplexerApproach. -/
inductive EclMultiplexerApproach
  | EclDefaultApproach
  | EclStone1Approach
  | EclStone2Approach
  | EclTwoPhaseApproach
  | EclOnePhaseApproach
deriving DecidableEq

/-- the concrete parameter object owned through the type-erased pointer
realParams_ of EclMultiplexerMaterialParams, one variant per approach
that allocates (EclOnePhaseApproach allocates nothing). -/
inductive EclMultiplexerRealParams (GasOilParams OilWaterParams : Type) where
  | stone1 (p : EclStone1MaterialParams GasOilParams OilWaterParams)
  | stone2 (p : EclStone2MaterialParams GasOilParams OilWaterParams)
  | defaultMat (p : EclDefaultMaterialParams GasOilParams OilWaterParams)
  | twoPhase (p : EclTwoPhaseMaterialParams GasOilParams OilWaterParams)

/-- state of EclMultiplexerMaterialParams: the EnsureFinalized base,
the approach discriminator (an enum, indeterminate until setApproach)
and the owned type-erased parameter object (none models a null shared
pointer). -/
structure EclMultiplexerMaterialParams (GasOilParams OilWaterParams : Type) where
  base : EnsureFinalized
  approach_ : Option EclMultiplexerApproach
  realParams_ : Option (EclMultiplexerRealParams GasOilParams OilWaterParams)

namespace EclMultiplexerMaterialParams

variable {GasOilParams OilWaterParams : Type}

/-- default constructor of EclMultiplexerMaterialParams:
realParams_() leaves the pointer null. -/
def defaultInit : EclMultiplexerMaterialParams GasOilParams OilWaterParams :=
  ⟨EnsureFinalized.defaultInit, none, none⟩

/-- EclMultiplexerMaterialParams::setApproach: stores the tag and
allocates a fresh default-constructed parameter object matching it
(no allocation for the one-phase approach).  The source asserts that
realParams_ is null on entry. -/
def setApproach (m : EclMultiplexerMaterialParams GasOilParams OilWaterParams)
    (newApproach : EclMultiplexerApproach) :
    EclMultiplexerMaterialParams GasOilParams OilWaterParams :=
  { m with
    approach_ := some newApproach
    realParams_ :=
      match newApproach with
      | .EclStone1Approach => some (.stone1 EclStone1MaterialParams.defaultInit)
      | .EclStone2Approach => some (.stone2 EclStone2MaterialParams.defaultInit)
      | .EclDefaultApproach => some (.defaultMat EclDefaultMaterialParams.defaultInit)
      | .EclTwoPhaseApproach => some (.twoPhase EclTwoPhaseMaterialParams.defaultInit)
      | .EclOnePhaseApproach => m.realParams_ }

/-- the owned parameter object a freshly constructed multiplexer holds
right after setApproach with the given tag. -/
def freshRealParams (t : EclMultiplexerApproach) :
    Option (EclMultiplexerRealParams GasOilParams OilWaterParams) :=
  match t with
  | .EclStone1Approach => some (.stone1 EclStone1MaterialParams.defaultInit)
  | .EclStone2Approach => some (.stone2 EclStone2MaterialParams.defaultInit)
  | .EclDefaultApproach => some (.defaultMat EclDefaultMaterialParams.defaultInit)
  | .EclTwoPhaseApproach => some (.twoPhase EclTwoPhaseMaterialParams.defaultInit)
  | .EclOnePhaseApproach => none

/-- copy constructor of EclMultiplexerMaterialParams: starts with a
null realParams_ pointer and re-invokes setApproach with the tag read
from the source object. -/
def copyConstruct (other : EclMultiplexerMaterialParams GasOilParams OilWaterParams) :
    EclMultiplexerMaterialParams GasOilParams OilWaterParams :=
  match other.approach_ with
  | some t => setApproach defaultInit t
  | none => defaultInit

/-- copy assignment of EclMultiplexerMaterialParams: resets the owned
pointer of the target, then re-invokes setApproach with the tag read
from the source object. -/
def copyAssign (target other : EclMultiplexerMaterialParams GasOilParams OilWaterParams) :
    EclMultiplexerMaterialParams GasOilParams OilWaterParams :=
  let t0 := { target with realParams_ :=
    (none : Option (EclMultiplexerRealParams GasOilParams OilWaterParams)) }
  match other.approach_ with
  | some t => setApproach t0 t
  | none => { t0 with approach_ := none }

/-- EclMultiplexerMaterialParams::approach. -/
def approach (m : EclMultiplexerMaterialParams GasOilParams OilWaterParams) :
    Option EclMultiplexerApproach :=
  m.approach_

/-- getRealParams specialized to EclStone1Approach: the assertion that
the active tag matches the requested one is modelled by returning none
on mismatch. -/
def getRealParamsStone1
    (m : EclMultiplexerMaterialParams GasOilParams OilWaterParams) :
    Option (EclStone1MaterialParams GasOilParams OilWaterParams) :=
  if m.approach_ = some .EclStone1Approach then
    match m.realParams_ with
    | some (.stone1 p) => some p
    | _ => none
  else none

/-- getRealParams specialized to EclStone2Approach. -/
def getRealParamsStone2
    (m : EclMultiplexerMaterialParams GasOilParams OilWaterParams) :
    Option (EclStone2MaterialParams GasOilParams OilWaterParams) :=
  if m.approach_ = some .EclStone2Approach then
    match m.realParams_ with
    | some (.stone2 p) => some p
    | _ => none
  else none

end EclMultiplexerMaterialParams

/-- C6: copy construction and copy assignment of the multiplexer
parameter object copy the approach tag from the source but allocate a
fresh default-initialized, unfinalized parameter object for that tag,
independent of the (arbitrarily modified and finalized) parameter
values owned by the source. -/
theorem EclMultiplexerMaterialParams.copy_resets_real_params
    (GasOilParams OilWaterParams : Type)
    (src target : EclMultiplexerMaterialParams GasOilParams OilWaterParams)
    (t : EclMultiplexerApproach) (h : src.approach_ = some t) :
    (EclMultiplexerMaterialParams.copyConstruct src).approach = some t
    ∧ (EclMultiplexerMaterialParams.copyConstruct src).realParams_
        = EclMultiplexerMaterialParams.freshRealParams t
    ∧ (EclMultiplexerMaterialParams.copyAssign target src).approach = some t
    ∧ (EclMultiplexerMaterialParams.copyAssign target src).realParams_
        = EclMultiplexerMaterialParams.freshRealParams t := by
  cases t <;>
    simp [EclMultiplexerMaterialParams.copyConstruct,
          EclMultiplexerMaterialParams.copyAssign,
          EclMultiplexerMaterialParams.setApproach,
          EclMultiplexerMaterialParams.freshRealParams,
          EclMultiplexerMaterialParams.approach,
          EclMultiplexerMaterialParams.defaultInit, h]

/-- witness for C6: copying a multiplexer whose owned Stone1 parameter
object was modified and finalized yields a fresh default Stone1
parameter object, not the modified one. -/
theorem EclMultiplexerMaterialParams.copy_resets_real_params_witness :
    (@EclMultiplexerMaterialParams.mk Unit Unit
        (EnsureFinalized.mk true) (some .EclStone1Approach)
        (some (.stone1 ⟨EnsureFinalized.mk true, some (), some (),
          some (1/4), some 2, some (1/3)⟩))).approach_
      = some .EclStone1Approach
    ∧ (EclMultiplexerMaterialParams.copyConstruct
        (EclMultiplexerMaterialParams.mk
          (EnsureFinalized.mk true) (some .EclStone1Approach)
          (some (.stone1 ⟨EnsureFinalized.mk true, some (), some (),
            some (1/4), some 2, some (1/3)⟩)))).realParams_
      = EclMultiplexerMaterialParams.freshRealParams .EclStone1Approach :=
  ⟨rfl,
   (EclMultiplexerMaterialParams.copy_resets_real_params Unit Unit
      (EclMultiplexerMaterialParams.mk
        (EnsureFinalized.mk true) (some .EclStone1Approach)
        (some (.stone1 ⟨EnsureFinalized.mk true, some (), some (),
          some (1/4), some 2, some (1/3)⟩)))
      EclMultiplexerMaterialParams.defaultInit
      .EclStone1Approach rfl).2.1⟩

/-- C9: after setApproach with the Stone1 tag on a multiplexer that
owns no parameter object yet, the stored approach is Stone1, the
Stone1 getRealParams accessor returns the owned default-constructed
pre-finalize Stone1 parameter object, and the Stone2 getRealParams
accessor is rejected by the tag check. -/
theorem EclMultiplexerMaterialParams.getRealParams_tag_check
    (GasOilParams OilWaterParams : Type)
    (m : EclMultiplexerMaterialParams GasOilParams OilWaterParams)
    (h : m.realParams_ = none) :
    (m.setApproach .EclStone1Approach).approach = some .EclStone1Approach
    ∧ EclMultiplexerMaterialParams.getRealParamsStone1 (m.setApproach .EclStone1Approach)
        = some EclStone1MaterialParams.defaultInit
    ∧ EclMultiplexerMaterialParams.getRealParamsStone2 (m.setApproach .EclStone1Approach)
        = none := by
  refine ⟨rfl, ?_, ?_⟩ <;>
    simp [EclMultiplexerMaterialParams.setApproach,
          EclMultiplexerMaterialParams.getRealParamsStone1,
          EclMultiplexerMaterialParams.getRealParamsStone2]

/-- witness for C9 on the default-constructed multiplexer. -/
theorem EclMultiplexerMaterialParams.getRealParams_tag_check_witness :
    (@EclMultiplexerMaterialParams.defaultInit Unit Unit).realParams_ = none
    ∧ EclMultiplexerMaterialParams.getRealParamsStone1
        ((@EclMultiplexerMaterialParams.defaultInit Unit Unit).setApproach
          .EclStone1Approach)
        = some EclStone1MaterialParams.defaultInit
    ∧ EclMultiplexerMaterialParams.getRealParamsStone2
        ((@EclMultiplexerMaterialParams.defaultInit Unit Unit).setApproach
          .EclStone1Approach)
        = none :=
  ⟨rfl,
   (EclMultiplexerMaterialParams.getRealParams_tag_check Unit Unit
      EclMultiplexerMaterialParams.defaultInit rfl).2.1,
   (EclMultiplexerMaterialParams.getRealParams_tag_check Unit Unit
      EclMultiplexerMaterialParams.defaultInit rfl).2.2⟩

end EwomsMaterial
